import Mathlib

/-!
# Verification of the `infintebites` submission workflow

A shallow embedding of the planner submission controller
(`src/unnamed/part_001`, `PlannerApp` and its helpers), the event-sink
wiring of the experience layer (`src/unnamed/part_004`,
`ExperienceApp.wirePlannerEvents`) and the basic-auth static asset
responder (`src/unnamed/part_000`, `handler`), together with theorems
about the claims of the specification.

JavaScript numbers obtained from `Number(string)` are modelled by the
type `JsNum` (NaN / finite rational / signed infinity); the string-to-
number conversion itself is an uninterpreted parameter `toNumber`, since
every property proved here holds for an arbitrary conversion function —
the code applies `Number` to the same trimmed string in the validator
and in the payload builder, which is all the proofs need.
-/

namespace Planner

/-- The result of JavaScript `Number(...)`: NaN, a finite value
(modelled as a rational), or a signed infinity. -/
inductive JsNum
  | nan
  | finite (q : ℚ)
  | posInf
  | negInf
deriving DecidableEq, Repr

/-- JavaScript `Number.isFinite`. -/
def JsNum.isFinite : JsNum → Bool
  | .finite _ => true
  | _ => false

/-- JavaScript `n <= b` for a number `n` and a finite bound `b`
(`NaN <= b` is false). -/
def JsNum.jsLe : JsNum → ℚ → Bool
  | .nan, _ => false
  | .posInf, _ => false
  | .negInf, _ => true
  | .finite q, b => q ≤ b

/-- JavaScript `n < b` for a finite bound `b`. -/
def JsNum.jsLt : JsNum → ℚ → Bool
  | .nan, _ => false
  | .posInf, _ => false
  | .negInf, _ => true
  | .finite q, b => q < b

/-- JavaScript `n > b` for a finite bound `b`. -/
def JsNum.jsGt : JsNum → ℚ → Bool
  | .nan, _ => false
  | .posInf, _ => true
  | .negInf, _ => false
  | .finite q, b => b < q

/-- `PlannerState` from `planner.js`:
`'idle' | 'validating' | 'submitting' | 'success' | 'error'`. -/
inductive PlannerState
  | idle
  | validating
  | submitting
  | success
  | error
deriving DecidableEq, Repr

/-- `PlannerErrorKind`:
`'VALIDATION' | 'NETWORK' | 'TIMEOUT' | 'SERVER' | 'UNKNOWN'`. -/
inductive ErrorKind
  | VALIDATION
  | NETWORK
  | TIMEOUT
  | SERVER
  | UNKNOWN
deriving DecidableEq, Repr

/-- The observable features of a thrown JavaScript error that
`resolveError` inspects: its `message`, an optional `code` property, an
optional numeric `status` property, and whether it is a `TypeError`. -/
structure RawError where
  message : String
  code : Option String := none
  status : Option Int := none
  isTypeError : Bool := false
deriving DecidableEq, Repr

/-- `PlannerResolvedError`: `{ kind, message, raw? }`. -/
structure ResolvedError where
  kind : ErrorKind
  message : String
  raw : Option RawError := none
deriving DecidableEq, Repr

/-- `PlannerStepData`: `{ steps?: string[] }`. -/
structure PlanData where
  steps : Option (List String) := none
deriving DecidableEq, Repr

/-- A bundle id is `string|number`. -/
inductive BundleId
  | str (s : String)
  | num (n : Int)
deriving DecidableEq, Repr

/-- `PlannerBundle`: `{ id, name, description?, price?, href? }`. -/
structure Bundle where
  id : BundleId
  name : String
  description : Option String := none
  price : Option String := none
  href : Option String := none
deriving DecidableEq, Repr

/-- `PlannerPayload`: `{ age_months, concern, email? }`.  The `email`
key is present exactly when the field is `some`. -/
structure Payload where
  age_months : JsNum
  concern : String
  email : Option String := none
deriving DecidableEq, Repr

/-- The field-errors record built by `validateFields`: an object with at
most the keys `age`, `concern`, `email`; an absent key is `none`. -/
structure FieldErrors where
  age : Option String := none
  concern : Option String := none
  email : Option String := none
deriving DecidableEq, Repr

/-- `true` when the field-errors object has no keys
(`Object.keys(fieldErrors).length === 0`). -/
def FieldErrors.isEmpty (fe : FieldErrors) : Bool :=
  fe.age.isNone && fe.concern.isNone && fe.email.isNone

/-- `PlannerValidationResult`: `{ ok, formError, fieldErrors }`. -/
structure ValidationResult where
  ok : Bool
  formError : Option String
  fieldErrors : FieldErrors
deriving DecidableEq, Repr

/-! ## Constants (`DEFAULTS` in `planner.js`) -/

def MIN_AGE_MONTHS : ℚ := 1
def MAX_AGE_MONTHS : ℚ := 600
def MIN_CONCERN_LEN : Nat := 3
def MAX_CONCERN_LEN : Nat := 500

def STATUS_IDLE : String := ""
def STATUS_LOADING : String := "Generating your plan…"
def STATUS_SUCCESS : String := "All done! Enjoy your personalized plan."
def STATUS_VALIDATION_ERROR : String :=
  "Please fix the highlighted fields and try again."
def STATUS_GENERIC_ERROR : String :=
  "Something went wrong. Please try again later."
def STATUS_NETWORK_ERROR : String :=
  "Network error – please check your connection and try again."
def STATUS_TIMEOUT_ERROR : String :=
  "Request took too long – please try again in a moment."
def STATUS_PARTIAL_BUNDLES_ERROR : String :=
  "Plan generated, but bundle recommendations are unavailable right now."

/-! ## String primitives

The JavaScript string operations the code uses (`trim`, single-
separator `split`, global replace of `..`, substring search) are
implemented here over character lists, so that every definition can be
evaluated by the kernel on concrete inputs. -/

/-- JavaScript `String.prototype.trim`: strip whitespace from both
ends. -/
def jsTrim (s : String) : String :=
  String.mk
    (((s.data.dropWhile Char.isWhitespace).reverse.dropWhile
      Char.isWhitespace).reverse)

/-- JavaScript `str.split(sep)` for a single-character separator:
`"".split(sep)` is `[""]`, and consecutive separators produce empty
parts. -/
def splitOnChar (sep : Char) : List Char → List (List Char)
  | [] => [[]]
  | c :: rest =>
    let r := splitOnChar sep rest
    if c = sep then [] :: r
    else
      match r with
      | [] => [[c]]
      | h :: t => (c :: h) :: t

/-- JavaScript `str.replace(/\.\./g, '')`: remove every
non-overlapping occurrence of `..`, scanning left to right. -/
def removeDotDot : List Char → List Char
  | [] => []
  | [c] => [c]
  | '.' :: '.' :: rest => removeDotDot rest
  | c :: rest => c :: removeDotDot rest

/-- The character list contains the substring `..`. -/
def containsDotDot : List Char → Bool
  | [] => false
  | [_] => false
  | '.' :: '.' :: _ => true
  | _ :: rest => containsDotDot rest

/-- `getTrimmedValue`: `(input?.value ?? '').trim()`, on the input's
string value. -/
def getTrimmedValue (s : String) : String := jsTrim s

/-! ## Validator (`validateFields`) -/

/-- The test of `/^[^\s@]+@[^\s@]+\.[^\s@]+$/` on a string, by the
existence semantics of the regex: the string splits as
`local@rest` with `local` non-empty, no whitespace or further `@`
anywhere, and `rest` containing a `.` that is neither its first nor its
last character (`[^\s@]` admits `.`, so the parts around that dot may
themselves contain dots). -/
def basicEmailTest (s : String) : Bool :=
  match splitOnChar '@' s.data with
  | [localPart, domainPart] =>
    localPart ≠ [] &&
    !(s.data.any Char.isWhitespace) &&
    (((domainPart.drop 1).dropLast).contains '.')
  | _ => false

/-- `validateFields(ageRaw, concernRaw, emailRaw)` from `planner.js`,
parameterised by the string-to-number conversion `toNumber`
(JavaScript `Number`). -/
def validateFields (toNumber : String → JsNum)
    (ageRaw concernRaw emailRaw : String) : ValidationResult :=
  -- Age
  let ageValue := jsTrim ageRaw
  let ageNumber := toNumber ageValue
  let ageErr : Option String :=
    if ageValue = "" then
      some "Age is required."
    else if !ageNumber.isFinite || ageNumber.jsLe 0 then
      some "Age must be a positive number."
    else if ageNumber.jsLt MIN_AGE_MONTHS || ageNumber.jsGt MAX_AGE_MONTHS then
      some "Age must be between 1 and 600 months."
    else
      none
  -- Concern
  let concern := jsTrim concernRaw
  let concernErr : Option String :=
    if concern = "" then
      some "Please describe your main concern."
    else if concern.length < MIN_CONCERN_LEN then
      some "Concern must be at least 3 characters."
    else if concern.length > MAX_CONCERN_LEN then
      some "Concern must be at most 500 characters."
    else
      none
  -- Email (optional but validated if present)
  let email := jsTrim emailRaw
  let emailErr : Option String :=
    if email ≠ "" && !basicEmailTest email then
      some "Please enter a valid email address."
    else
      none
  let fieldErrors : FieldErrors :=
    { age := ageErr, concern := concernErr, email := emailErr }
  let ok := fieldErrors.isEmpty
  { ok := ok
    formError := if ok then none else some STATUS_VALIDATION_ERROR
    fieldErrors := fieldErrors }

/-! ## Network call wrapper (`jsonFetch`) -/

/-- The outcome of the underlying `fetch` that `jsonFetch` observes:
the request timed out (abort fired), failed at transport level
(`fetch` rejected with a `TypeError`), returned a non-success status
(with an optional parsed `message` field in the body), or succeeded
with an empty body, a body decoding to a value, or a non-empty body
that is not valid JSON. -/
inductive FetchOutcome (α : Type)
  | timeout
  | transportError (msg : String)
  | httpError (status : Int) (messageField : Option String)
  | okEmpty
  | okJson (v : α)
  | okMalformed
deriving DecidableEq, Repr

/-- `jsonFetch` from `planner.js`, as a function of the fetch outcome:
normalises a timeout to an error with `code = 'TIMEOUT'` and message
`'timeout'`; a non-success status to an `Error` carrying the numeric
`status` and the message `HTTP <status>` (with the body's `message`
appended when present); a transport failure to the `TypeError` that
`fetch` rejected with; an empty successful body to `null`; a non-empty
body that fails to parse to `Error('Invalid JSON response')`. -/
def jsonFetch {α : Type} (o : FetchOutcome α) : Except RawError (Option α) :=
  match o with
  | .timeout =>
      .error { message := "timeout", code := some "TIMEOUT" }
  | .transportError m =>
      .error { message := m, isTypeError := true }
  | .httpError status messageField =>
      .error
        { message :=
            "HTTP " ++ toString status ++
              (match messageField with
               | some m => ": " ++ m
               | none => "")
          status := some status }
  | .okEmpty => .ok none
  | .okJson v => .ok (some v)
  | .okMalformed => .error { message := "Invalid JSON response" }

/-! ## Error resolution (`PlannerApp.resolveError`) -/

/-- `resolveError(err)`: `err` is `none` when the thrown value was
null/undefined (falsy). -/
def resolveError (err : Option RawError) : ResolvedError :=
  match err with
  | none =>
      { kind := .UNKNOWN, message := STATUS_GENERIC_ERROR }
  | some e =>
      if e.code = some "TIMEOUT" || e.message = "timeout" then
        { kind := .TIMEOUT, message := STATUS_TIMEOUT_ERROR, raw := some e }
      else if e.isTypeError then
        { kind := .NETWORK, message := STATUS_NETWORK_ERROR, raw := some e }
      else if e.status.isSome then
        { kind := .SERVER, message := STATUS_GENERIC_ERROR, raw := some e }
      else
        { kind := .UNKNOWN, message := STATUS_GENERIC_ERROR, raw := some e }

/-! ## Events and controller state -/

/-- The detail object attached to an emitted event, as a tagged union
over the shapes actually passed to `onEvent` in the source:
`{ state }`, `{ fieldErrors }`, `{ payload }`, `{ plan }`,
`{ bundles }`, `{ plan, bundles }`, a resolved error, or — for
`bundles_error` — the raw caught error itself. -/
inductive EventDetail
  | stateChange (s : PlannerState)
  | validationErrors (fe : FieldErrors)
  | submitPayload (p : Payload)
  | planDetail (plan : Option PlanData)
  | bundlesDetail (bundles : Option (List Bundle))
  | successDetail (plan : Option PlanData) (bundles : Option (List Bundle))
  | resolvedDetail (e : ResolvedError)
  | rawDetail (e : RawError)
deriving DecidableEq, Repr

/-- One call of the event sink: the stage string and the detail. -/
abbrev Event := String × EventDetail

/-- The `state_change` event emitted by `setState`. -/
def scEv (s : PlannerState) : Event := ("state_change", .stateChange s)

/-- The mutable fields of a `PlannerApp` instance (and of the DOM it
owns) that the submit flow reads or writes: the FSM state, the status
line, the spinner/submit-button flags, the displayed field errors, and
the last arguments passed to `renderPlan` / `renderBundles` (`none`
when that section has not been rendered in this page session). -/
structure Controller where
  state : PlannerState
  statusMsg : String := STATUS_IDLE
  statusIsError : Bool := false
  spinnerHidden : Bool := true
  formDisabled : Bool := false
  shownFieldErrors : FieldErrors := {}
  renderedPlan : Option (Option PlanData) := none
  renderedBundles : Option (Option (List Bundle)) := none
deriving DecidableEq, Repr

/-- A network request issued by the submit flow, with the argument that
determines it: `POST planEndpoint` with the payload as body, or
`GET bundlesEndpoint(payload.concern)`. -/
inductive NetCall
  | plan (payload : Payload)
  | bundles (concern : String)
deriving DecidableEq, Repr

/-- The result of one `handleSubmit` run: the controller afterwards,
the events emitted to the sink in order, and the network calls issued
in order. -/
structure SubmitResult where
  ctrl : Controller
  events : List Event
  calls : List NetCall
deriving DecidableEq, Repr

/-! ## `PlannerApp.validateAndShowErrors`, `PlannerApp.getPayload` -/

/-- `validateAndShowErrors` (with `focusFirstInvalid` irrelevant to
state): runs `validateFields` on the trimmed input values, clears the
displayed field errors, and on failure sets the error status, shows the
per-field messages, and emits `validation_failed` with the field-errors
mapping; on success clears the status.  Returns the updated controller,
the emitted events, and the boolean result. -/
def validateAndShowErrors (toNumber : String → JsNum) (c : Controller)
    (ageRaw concernRaw emailRaw : String) :
    Controller × List Event × Bool :=
  let result := validateFields toNumber (getTrimmedValue ageRaw)
      (getTrimmedValue concernRaw) (getTrimmedValue emailRaw)
  let c := { c with shownFieldErrors := {} }   -- clearFieldErrors()
  if result.ok then
    ({ c with statusMsg := STATUS_IDLE, statusIsError := false }, [], true)
  else
    ({ c with
        statusMsg := result.formError.getD STATUS_VALIDATION_ERROR
        statusIsError := true
        shownFieldErrors := result.fieldErrors },
      [("validation_failed", .validationErrors result.fieldErrors)],
      false)

/-- `getPayload`: `Number(trimmedAge || '0')`, the trimmed concern, and
the `email` key only when the trimmed email is non-empty. -/
def getPayload (toNumber : String → JsNum)
    (ageRaw concernRaw emailRaw : String) : Payload :=
  let t := getTrimmedValue ageRaw
  { age_months := toNumber (if t = "" then "0" else t)
    concern := getTrimmedValue concernRaw
    email :=
      let e := getTrimmedValue emailRaw
      if e = "" then none else some e }

/-! ## `PlannerApp.handleSubmit` -/

/-- `handleSubmit`, as a pure function of the controller, the three raw
input values, and the outcomes the network would deliver for the
primary (plan) and secondary (bundles) request.  The secondary outcome
is only consulted on the paths where the code actually issues that
request.  The `finally` block (hide spinner, enable form, reset a
lingering `'submitting'` state to `'idle'`) applies to every path that
entered the `try`. -/
def handleSubmit (toNumber : String → JsNum) (c : Controller)
    (ageRaw concernRaw emailRaw : String)
    (primary : FetchOutcome PlanData)
    (secondary : FetchOutcome (List Bundle)) : SubmitResult :=
  -- Avoid double-submit
  if c.state = .submitting then
    ⟨c, [], []⟩
  else
    let c := { c with state := .validating }      -- setState('validating')
    let evs := [scEv .validating]
    match validateAndShowErrors toNumber c ageRaw concernRaw emailRaw with
    | (c, vevs, false) =>
        -- validation failed: setState('error') and stop
        ⟨{ c with state := .error }, evs ++ vevs ++ [scEv .error], []⟩
    | (c, vevs, true) =>
        let payload := getPayload toNumber ageRaw concernRaw emailRaw
        let evs := evs ++ vevs ++ [("submit", .submitPayload payload)]
        -- disableForm(); showSpinner(); setStatus(LOADING); setState('submitting')
        let c := { c with
            formDisabled := true
            spinnerHidden := false
            statusMsg := STATUS_LOADING
            statusIsError := false
            state := .submitting }
        let evs := evs ++ [scEv .submitting]
        let calls := [NetCall.plan payload]
        let afterTry : Controller × List Event × List NetCall :=
          match jsonFetch primary with
          | .error err =>
              let resolved := resolveError (some err)
              (({ c with
                    statusMsg := resolved.message
                    statusIsError := true
                    state := .error }),
                evs ++ [("error", .resolvedDetail resolved), scEv .error],
                calls)
          | .ok planData =>
              let c := { c with renderedPlan := some planData }
              let evs := evs ++ [("plan_success", .planDetail planData)]
              let calls := calls ++ [NetCall.bundles payload.concern]
              match jsonFetch secondary with
              | .ok bundlesData =>
                  (({ c with
                        renderedBundles := some bundlesData
                        statusMsg := STATUS_SUCCESS
                        statusIsError := false
                        state := .success }),
                    evs ++
                      [("bundles_success", .bundlesDetail bundlesData),
                       ("success", .successDetail planData bundlesData),
                       scEv .success],
                    calls)
              | .error bundlesErr =>
                  (({ c with
                        renderedBundles := some none  -- renderBundles(null)
                        statusMsg := STATUS_PARTIAL_BUNDLES_ERROR
                        statusIsError := true
                        state := .error }),
                    evs ++ [("bundles_error", .rawDetail bundlesErr), scEv .error],
                    calls)
        -- finally: hideSpinner(); enableForm(); reset a lingering 'submitting'
        let c : Controller :=
          { afterTry.1 with spinnerHidden := true, formDisabled := false }
        if c.state = .submitting then
          ⟨{ c with state := .idle }, afterTry.2.1 ++ [scEv .idle], afterTry.2.2⟩
        else
          ⟨c, afterTry.2.1, afterTry.2.2⟩

/-! ## Path characterisation lemmas for `handleSubmit` -/

theorem validateFields_ok_eq (toNumber : String → JsNum) (a co em : String) :
    (validateFields toNumber a co em).ok =
      (validateFields toNumber a co em).fieldErrors.isEmpty := by
  simp [validateFields]

theorem validateFields_formError_of_not_ok (toNumber : String → JsNum)
    (a co em : String) (h : (validateFields toNumber a co em).ok = false) :
    (validateFields toNumber a co em).formError = some STATUS_VALIDATION_ERROR := by
  simp only [validateFields] at h ⊢
  simp only [h, Bool.false_eq_true, if_false]

theorem vase_ok (toNumber : String → JsNum) (c : Controller) (a co em : String)
    (h : (validateFields toNumber (getTrimmedValue a) (getTrimmedValue co)
        (getTrimmedValue em)).ok = true) :
    validateAndShowErrors toNumber c a co em =
      ({ c with
          shownFieldErrors := {}
          statusMsg := STATUS_IDLE
          statusIsError := false }, [], true) := by
  simp only [validateAndShowErrors, h, if_true]

theorem vase_not_ok (toNumber : String → JsNum) (c : Controller) (a co em : String)
    (h : (validateFields toNumber (getTrimmedValue a) (getTrimmedValue co)
        (getTrimmedValue em)).ok = false) :
    validateAndShowErrors toNumber c a co em =
      ({ c with
          shownFieldErrors := (validateFields toNumber (getTrimmedValue a)
            (getTrimmedValue co) (getTrimmedValue em)).fieldErrors
          statusMsg := STATUS_VALIDATION_ERROR
          statusIsError := true },
        [("validation_failed", .validationErrors (validateFields toNumber
          (getTrimmedValue a) (getTrimmedValue co) (getTrimmedValue em)).fieldErrors)],
        false) := by
  simp only [validateAndShowErrors, h, Bool.false_eq_true, if_false,
    validateFields_formError_of_not_ok toNumber _ _ _ h, Option.getD_some]

theorem handleSubmit_invalid (toNumber : String → JsNum) (c : Controller)
    (a co em : String) (p : FetchOutcome PlanData) (s : FetchOutcome (List Bundle))
    (hns : c.state ≠ .submitting)
    (hok : (validateFields toNumber (getTrimmedValue a) (getTrimmedValue co)
        (getTrimmedValue em)).ok = false) :
    handleSubmit toNumber c a co em p s =
      ⟨{ c with
          state := .error
          statusMsg := STATUS_VALIDATION_ERROR
          statusIsError := true
          shownFieldErrors := (validateFields toNumber (getTrimmedValue a)
            (getTrimmedValue co) (getTrimmedValue em)).fieldErrors },
        [scEv .validating,
         ("validation_failed", .validationErrors (validateFields toNumber
           (getTrimmedValue a) (getTrimmedValue co) (getTrimmedValue em)).fieldErrors),
         scEv .error],
        []⟩ := by
  simp only [handleSubmit, if_neg hns, vase_not_ok, hok]
  simp

theorem handleSubmit_primary_error (toNumber : String → JsNum) (c : Controller)
    (a co em : String) (p : FetchOutcome PlanData) (s : FetchOutcome (List Bundle))
    (pe : RawError)
    (hns : c.state ≠ .submitting)
    (hok : (validateFields toNumber (getTrimmedValue a) (getTrimmedValue co)
        (getTrimmedValue em)).ok = true)
    (hp : jsonFetch p = .error pe) :
    handleSubmit toNumber c a co em p s =
      ⟨{ c with
          state := .error
          statusMsg := (resolveError (some pe)).message
          statusIsError := true
          spinnerHidden := true
          formDisabled := false
          shownFieldErrors := {} },
        [scEv .validating,
         ("submit", .submitPayload (getPayload toNumber a co em)),
         scEv .submitting,
         ("error", .resolvedDetail (resolveError (some pe))),
         scEv .error],
        [NetCall.plan (getPayload toNumber a co em)]⟩ := by
  simp only [handleSubmit, if_neg hns, vase_ok, hok, hp]
  simp

theorem handleSubmit_bundles_error (toNumber : String → JsNum) (c : Controller)
    (a co em : String) (p : FetchOutcome PlanData) (s : FetchOutcome (List Bundle))
    (pd : Option PlanData) (be : RawError)
    (hns : c.state ≠ .submitting)
    (hok : (validateFields toNumber (getTrimmedValue a) (getTrimmedValue co)
        (getTrimmedValue em)).ok = true)
    (hp : jsonFetch p = .ok pd)
    (hs : jsonFetch s = .error be) :
    handleSubmit toNumber c a co em p s =
      ⟨{ c with
          state := .error
          statusMsg := STATUS_PARTIAL_BUNDLES_ERROR
          statusIsError := true
          spinnerHidden := true
          formDisabled := false
          shownFieldErrors := {}
          renderedPlan := some pd
          renderedBundles := some none },
        [scEv .validating,
         ("submit", .submitPayload (getPayload toNumber a co em)),
         scEv .submitting,
         ("plan_success", .planDetail pd),
         ("bundles_error", .rawDetail be),
         scEv .error],
        [NetCall.plan (getPayload toNumber a co em),
         NetCall.bundles (getPayload toNumber a co em).concern]⟩ := by
  simp only [handleSubmit, if_neg hns, vase_ok, hok, hp, hs]
  simp

theorem handleSubmit_success (toNumber : String → JsNum) (c : Controller)
    (a co em : String) (p : FetchOutcome PlanData) (s : FetchOutcome (List Bundle))
    (pd : Option PlanData) (bd : Option (List Bundle))
    (hns : c.state ≠ .submitting)
    (hok : (validateFields toNumber (getTrimmedValue a) (getTrimmedValue co)
        (getTrimmedValue em)).ok = true)
    (hp : jsonFetch p = .ok pd)
    (hs : jsonFetch s = .ok bd) :
    handleSubmit toNumber c a co em p s =
      ⟨{ c with
          state := .success
          statusMsg := STATUS_SUCCESS
          statusIsError := false
          spinnerHidden := true
          formDisabled := false
          shownFieldErrors := {}
          renderedPlan := some pd
          renderedBundles := some bd },
        [scEv .validating,
         ("submit", .submitPayload (getPayload toNumber a co em)),
         scEv .submitting,
         ("plan_success", .planDetail pd),
         ("bundles_success", .bundlesDetail bd),
         ("success", .successDetail pd bd),
         scEv .success],
        [NetCall.plan (getPayload toNumber a co em),
         NetCall.bundles (getPayload toNumber a co em).concern]⟩ := by
  simp only [handleSubmit, if_neg hns, vase_ok, hok, hp, hs]
  simp

/-! ## Event-trace predicates

`specOrderC5` renders the ordering asserted by the specification
(claim C5) word for word; `attemptTrace` is the order the code
actually produces.  Both are decidable predicates on the event list of
one submission attempt. -/

/-- The event has the given stage string. -/
def isStage (e : Event) (s : String) : Bool := e.1 = s

/-- The event is `state_change` carrying the given state. -/
def isSC (e : Event) (s : PlannerState) : Bool :=
  e.1 = "state_change" && e.2 = EventDetail.stateChange s

/-- The event is a `state_change` (any target state). -/
def isAnySC (e : Event) : Bool :=
  e.1 = "state_change" &&
    (match e.2 with
     | .stateChange _ => true
     | _ => false)

/-- The ordering stated by the specification, literally:
`state_change(Validating)`, then either `validation_failed` and stop,
or `submit`, `state_change(Submitting)`, `plan_success`, a
`state_change`, then either `bundles_success` followed by `success`,
or `bundles_error`, then `state_change(Error|Success)`, then possibly
`state_change(Idle)`. -/
def specOrderC5 (evs : List Event) : Bool :=
  match evs with
  | e1 :: rest =>
    isSC e1 .validating &&
    (match rest with
     | [e2] => isStage e2 "validation_failed"
     | e2 :: e3 :: e4 :: e5 :: rest2 =>
       isStage e2 "submit" && isSC e3 .submitting &&
       isStage e4 "plan_success" && isAnySC e5 &&
       (match rest2 with
        | [b1, f] =>
          isStage b1 "bundles_error" && (isSC f .error || isSC f .success)
        | [x, y, z] =>
          (isStage x "bundles_success" && isStage y "success" &&
            (isSC z .error || isSC z .success)) ||
          (isStage x "bundles_error" && (isSC y .error || isSC y .success) &&
            isSC z .idle)
        | [b1, b2, f, g] =>
          isStage b1 "bundles_success" && isStage b2 "success" &&
            (isSC f .error || isSC f .success) && isSC g .idle
        | _ => false)
     | _ => false)
  | [] => false

/-- The order the code emits for a single submission attempt:
`state_change(validating)`, then either
(`validation_failed`, `state_change(error)`), or `submit`,
`state_change(submitting)`, then either (`error`,
`state_change(error)`), or `plan_success` followed by either
(`bundles_error`, `state_change(error)`) or (`bundles_success`,
`success`, `state_change(success)`). -/
def attemptTrace (evs : List Event) : Bool :=
  match evs with
  | [e1, e2, e3] =>
    isSC e1 .validating && isStage e2 "validation_failed" && isSC e3 .error
  | [e1, e2, e3, e4, e5] =>
    isSC e1 .validating && isStage e2 "submit" && isSC e3 .submitting &&
      isStage e4 "error" && isSC e5 .error
  | [e1, e2, e3, e4, e5, e6] =>
    isSC e1 .validating && isStage e2 "submit" && isSC e3 .submitting &&
      isStage e4 "plan_success" && isStage e5 "bundles_error" && isSC e6 .error
  | [e1, e2, e3, e4, e5, e6, e7] =>
    isSC e1 .validating && isStage e2 "submit" && isSC e3 .submitting &&
      isStage e4 "plan_success" && isStage e5 "bundles_success" &&
      isStage e6 "success" && isSC e7 .success
  | _ => false

/-- The event is one of the three failure events of the flow. -/
def isFailureEvent (e : Event) : Bool :=
  e.1 = "validation_failed" || e.1 = "error" || e.1 = "bundles_error"

/-- The event's detail carries a `ResolvedError`, or the field-errors
mapping (the two shapes claim C8 allows for a failure event). -/
def carriesResolvedOrFieldErrors (e : Event) : Bool :=
  match e.2 with
  | .resolvedDetail _ => true
  | .validationErrors _ => true
  | _ => false

/-! ## Event channel wiring (`ExperienceApp.wirePlannerEvents`) -/

/-- An event sink with private state `σ`: `(stage, detail) -> void`,
modelled as a state transformer. -/
def Sink (σ : Type) : Type := String → EventDetail → σ → σ

/-- `wirePlannerEvents`: the monkey-patched `onEvent` first calls the
original sink (`originalOnEvent(stage, detail)`), then performs the
experience layer's additional dispatch
(`this.handlePlannerEvent(stage, detail)`).  The two sinks own
disjoint state, so the composite acts on the product. -/
def wirePlannerEvents {σ τ : Type} (orig : Sink σ) (handlePlannerEvent : Sink τ) :
    Sink (σ × τ) :=
  fun stage detail st =>
    (orig stage detail st.1, handlePlannerEvent stage detail st.2)

/-- Deliver a list of events to a sink, in order. -/
def deliverAll {σ : Type} (sink : Sink σ) (events : List Event) (s : σ) : σ :=
  events.foldl (fun s e => sink e.1 e.2 s) s

/-- A sink that records the `(stage, detail)` pairs it receives,
in order. -/
def recordSink : Sink (List Event) :=
  fun stage detail l => l ++ [(stage, detail)]

theorem deliverAll_wire_fst {σ τ : Type} (orig : Sink σ) (extra : Sink τ)
    (events : List Event) (s : σ) (t : τ) :
    (deliverAll (wirePlannerEvents orig extra) events (s, t)).1 =
      deliverAll orig events s := by
  induction events generalizing s t with
  | nil => rfl
  | cons e es ih => exact ih _ _

theorem deliverAll_record (events : List Event) (l : List Event) :
    deliverAll recordSink events l = l ++ events := by
  induction events generalizing l with
  | nil => simp [deliverAll]
  | cons e es ih =>
    simp [deliverAll, recordSink] at ih ⊢
    rw [ih]
    simp

end Planner

namespace StaticServer

open Planner in
/-- Value of a base64 alphabet character (`A-Z a-z 0-9 + /`);
`none` for characters outside the alphabet, which `Buffer.from(...,
'base64')` skips. -/
def b64Val (c : Char) : Option Nat :=
  if 'A' ≤ c ∧ c ≤ 'Z' then some (c.toNat - 65)
  else if 'a' ≤ c ∧ c ≤ 'z' then some (c.toNat - 97 + 26)
  else if '0' ≤ c ∧ c ≤ '9' then some (c.toNat - 48 + 52)
  else if c = '+' then some 62
  else if c = '/' then some 63
  else none

/-- Base64 decoding to a byte list, as `Buffer.from(s, 'base64')`:
characters outside the alphabet (including `=` padding) are skipped,
six bits are accumulated per character, and each completed group of
eight bits yields a byte; trailing bits are dropped. -/
def base64DecodeBytes (s : String) : List Nat :=
  (s.toList.filterMap b64Val |>.foldl
    (fun (st : List Nat × Nat × Nat) v =>
      let acc := st.2.1 * 64 + v
      let bits := st.2.2 + 6
      if 8 ≤ bits then
        (st.1 ++ [acc / 2 ^ (bits - 8)], acc % 2 ^ (bits - 8), bits - 8)
      else
        (st.1, acc, bits))
    ([], 0, 0)).1

/-- `Buffer.from(b64, 'base64').toString()` for ASCII content: decode
the base64 payload and read the bytes as characters. -/
def base64ToString (s : String) : String :=
  String.mk ((base64DecodeBytes s).map Char.ofNat)

/-- Node's `path.join(...parts)`: concatenate the non-empty parts with
`/`, then normalise — drop empty and `.` segments and resolve each
`..` against the previous segment (clamping at the root of an absolute
path). -/
def pathJoin (parts : List String) : String :=
  let joined : List Char :=
    List.intercalate ['/'] ((parts.filter (fun p => p ≠ "")).map String.data)
  let abs := joined.head? = some '/'
  let segs := (Planner.splitOnChar '/' joined).filter
    (fun s => s ≠ [] && s ≠ ['.'])
  let resolved := segs.foldl
    (fun acc seg =>
      if seg = ['.', '.'] then
        if acc ≠ [] ∧ acc.getLast? ≠ some ['.', '.'] then acc.dropLast
        else if abs then acc
        else acc ++ [seg]
      else acc ++ [seg]) ([] : List (List Char))
  let body := List.intercalate ['/'] resolved
  String.mk
    (if abs then '/' :: body
     else if body = [] then ['.'] else body)

/-- Node's `path.extname`: the suffix of the basename from its last
`.`, empty when the basename has no dot or only a leading dot. -/
def extname (p : String) : String :=
  let base := ((Planner.splitOnChar '/' p.data).getLast?).getD []
  let dotIdxs := (List.range base.length).filter
    (fun i => base.get? i = some '.')
  match dotIdxs.getLast? with
  | none => ""
  | some 0 => ""
  | some i => String.mk (base.drop i)

/-- The extension-to-content-type mapping of the handler. -/
def mimeTypes : List (String × String) :=
  [(".html", "text/html"), (".css", "text/css"),
   (".js", "application/javascript"), (".json", "application/json"),
   (".png", "image/png"), (".jpg", "image/jpeg"), (".jpeg", "image/jpeg"),
   (".gif", "image/gif"), (".svg", "image/svg+xml"), (".txt", "text/plain")]

/-- `mimeTypes[ext] || 'application/octet-stream'`. -/
def mimeLookup (ext : String) : String :=
  (mimeTypes.lookup ext).getD "application/octet-stream"

/-- An incoming HTTP request: the `Authorization` header (when
present) and the request URL. -/
structure Request where
  authorization : Option String := none
  url : String
deriving DecidableEq, Repr

/-- The handler's possible responses: `200` with a content type and
the served file's data, `404`, or `401`. -/
inductive Response
  | ok (contentType : String) (data : String)
  | notFound
  | unauthorized
deriving DecidableEq, Repr

/-- The file path the handler computes for a URL:
`path.join(cwd, 'frontend', 'public', url === '/' ? 'index.html' :
url)` followed by `filePath.replace(/\.\./g, '')`.  Note the order:
`path.join` normalises (and thereby applies) any `..` segments before
the replacement runs. -/
def resolveFilePath (cwd url : String) : String :=
  String.mk (Planner.removeDotDot
    (pathJoin [cwd, "frontend", "public",
      if url = "/" then "index.html" else url]).data)

/-- The static-asset `handler(req, res)` from the repository, over an
abstract filesystem `fs` mapping a path to the content of the regular
file stored there (`none` when `existsSync`/`isFile` fails).  `USER`
and `PASS` are the two environment-supplied credential values
(`none` when the variable is unset); the password side of the
credential split is `none` when the decoded header has no `:`, and
JavaScript `===` makes `undefined === undefined` true. -/
def handler (USER PASS : Option String) (cwd : String)
    (fs : String → Option String) (req : Request) : Response :=
  let auth := req.authorization.getD ""
  let b64 := String.mk (((Planner.splitOnChar ' ' auth.data).get? 1).getD [])
  let decoded := base64ToString b64
  let parts := Planner.splitOnChar ':' decoded.data
  let username := String.mk ((parts.get? 0).getD [])
  let password := (parts.get? 1).map String.mk
  if some username = USER ∧ password = PASS then
    let filePath := resolveFilePath cwd req.url
    match fs filePath with
    | some data =>
      .ok (mimeLookup (String.mk ((extname filePath).data.map Char.toLower)))
        data
    | none => .notFound
  else
    .unauthorized

/-- The path lies inside the public root directory. -/
def isUnderRoot (root p : String) : Bool :=
  List.isPrefixOf (root.data ++ ['/']) p.data

/-- The string contains a path-traversal sequence `..`. -/
def hasTraversal (url : String) : Bool :=
  Planner.containsDotDot url.data

/-- A filesystem with a single regular file, `/srv/frontend/secret.txt`,
which lies outside the public root `/srv/frontend/public`. -/
def demoFs : String → Option String :=
  fun p => if p = "/srv/frontend/secret.txt" then some "TOP SECRET" else none

end StaticServer

namespace Planner

/-! ## Concrete values used to instantiate the theorems -/

/-- A concrete string-to-number conversion for instantiations:
`"12"` parses to `12`, everything else to NaN. -/
def demoToNumber : String → JsNum :=
  fun s => if s = "12" then .finite 12 else .nan

/-- A fresh controller in the `idle` state. -/
def demoCtrl : Controller := { state := .idle }

/-- A concrete plan body. -/
def demoPlan : PlanData := { steps := ["Step 1", "Step 2"] }

/-! ## Claim theorems -/

/-- C1: for every submission attempt in which the primary (plan) call
succeeds and the secondary (bundles) call fails, the controller keeps
the primary result (it is still the rendered plan at the end, not
discarded or nulled), emits `bundles_error`, transitions to the error
state, and the events of the attempt occur in the order
`submit`, `plan_success`, `bundles_error` (the full emitted sequence
is `state_change(validating)`, `submit`, `state_change(submitting)`,
`plan_success`, `bundles_error`, `state_change(error)`). -/
theorem claim_C1_partial_success_keeps_plan (toNumber : String → JsNum)
    (c : Controller) (a co em : String) (p : FetchOutcome PlanData)
    (s : FetchOutcome (List Bundle)) (pd : Option PlanData) (be : RawError)
    (hns : c.state ≠ .submitting)
    (hok : (validateFields toNumber (getTrimmedValue a) (getTrimmedValue co)
        (getTrimmedValue em)).ok = true)
    (hp : jsonFetch p = .ok pd)
    (hs : jsonFetch s = .error be) :
    (handleSubmit toNumber c a co em p s).ctrl.renderedPlan = some pd ∧
    (handleSubmit toNumber c a co em p s).ctrl.state = .error ∧
    (handleSubmit toNumber c a co em p s).events =
      [scEv .validating,
       ("submit", .submitPayload (getPayload toNumber a co em)),
       scEv .submitting,
       ("plan_success", .planDetail pd),
       ("bundles_error", .rawDetail be),
       scEv .error] := by
  rw [handleSubmit_bundles_error toNumber c a co em p s pd be hns hok hp hs]
  exact ⟨rfl, rfl, rfl⟩

/-- Witness for C1: a concrete attempt (valid inputs, plan succeeds,
bundles request answers HTTP 500). -/
theorem claim_C1_witness :
    (handleSubmit demoToNumber demoCtrl "12" "teething pain" ""
      (.okJson demoPlan) (.httpError 500 none)).ctrl.renderedPlan =
        some (some demoPlan) ∧
    (handleSubmit demoToNumber demoCtrl "12" "teething pain" ""
      (.okJson demoPlan) (.httpError 500 none)).ctrl.state = .error ∧
    (handleSubmit demoToNumber demoCtrl "12" "teething pain" ""
      (.okJson demoPlan) (.httpError 500 none)).events =
      [scEv .validating,
       ("submit", .submitPayload (getPayload demoToNumber "12" "teething pain" "")),
       scEv .submitting,
       ("plan_success", .planDetail (some demoPlan)),
       ("bundles_error", .rawDetail ⟨"HTTP 500", none, some 500, false⟩),
       scEv .error] :=
  claim_C1_partial_success_keeps_plan demoToNumber demoCtrl "12" "teething pain" ""
    (.okJson demoPlan) (.httpError 500 none) (some demoPlan)
    ⟨"HTTP 500", none, some 500, false⟩ (by decide) (by decide) rfl rfl

/-- C2: for every input triple on which the validator fails, the
submission handler issues zero network calls, emits exactly one
`validation_failed` event carrying a non-empty field-errors mapping,
and the controller ends the attempt in the error state. -/
theorem claim_C2_validation_failure_no_network (toNumber : String → JsNum)
    (c : Controller) (a co em : String) (p : FetchOutcome PlanData)
    (s : FetchOutcome (List Bundle))
    (hns : c.state ≠ .submitting)
    (hok : (validateFields toNumber (getTrimmedValue a) (getTrimmedValue co)
        (getTrimmedValue em)).ok = false) :
    (handleSubmit toNumber c a co em p s).calls = [] ∧
    (handleSubmit toNumber c a co em p s).events =
      [scEv .validating,
       ("validation_failed", .validationErrors (validateFields toNumber
         (getTrimmedValue a) (getTrimmedValue co) (getTrimmedValue em)).fieldErrors),
       scEv .error] ∧
    (validateFields toNumber (getTrimmedValue a) (getTrimmedValue co)
      (getTrimmedValue em)).fieldErrors.isEmpty = false ∧
    (handleSubmit toNumber c a co em p s).ctrl.state = .error := by
  rw [handleSubmit_invalid toNumber c a co em p s hns hok]
  refine ⟨rfl, rfl, ?_, rfl⟩
  rw [← validateFields_ok_eq]
  exact hok

/-- Witness for C2: the empty age field fails validation; no calls,
one `validation_failed`, final state error. -/
theorem claim_C2_witness :
    (handleSubmit demoToNumber demoCtrl "" "teething pain" ""
      (.okJson demoPlan) (.okJson [])).calls = [] ∧
    (handleSubmit demoToNumber demoCtrl "" "teething pain" ""
      (.okJson demoPlan) (.okJson [])).events =
      [scEv .validating,
       ("validation_failed", .validationErrors (validateFields demoToNumber
         (getTrimmedValue "") (getTrimmedValue "teething pain")
         (getTrimmedValue "")).fieldErrors),
       scEv .error] ∧
    (validateFields demoToNumber (getTrimmedValue "")
      (getTrimmedValue "teething pain")
      (getTrimmedValue "")).fieldErrors.isEmpty = false ∧
    (handleSubmit demoToNumber demoCtrl "" "teething pain" ""
      (.okJson demoPlan) (.okJson [])).ctrl.state = .error :=
  claim_C2_validation_failure_no_network demoToNumber demoCtrl "" "teething pain" ""
    (.okJson demoPlan) (.okJson []) (by decide) (by decide)

/-- C3: while the controller is in the submitting state, a new submit
invocation is a complete no-op: no network calls, no state
transitions, no events, and every controller field unchanged. -/
theorem claim_C3_submitting_reentry_noop (toNumber : String → JsNum)
    (c : Controller) (a co em : String) (p : FetchOutcome PlanData)
    (s : FetchOutcome (List Bundle))
    (h : c.state = .submitting) :
    handleSubmit toNumber c a co em p s = ⟨c, [], []⟩ := by
  simp [handleSubmit, h]

/-- Witness for C3: a concrete controller mid-submission. -/
theorem claim_C3_witness :
    handleSubmit demoToNumber { state := .submitting } "12" "teething pain" ""
      (.okJson demoPlan) (.okJson []) = ⟨{ state := .submitting }, [], []⟩ :=
  claim_C3_submitting_reentry_noop demoToNumber { state := .submitting }
    "12" "teething pain" "" (.okJson demoPlan) (.okJson []) rfl

/-- Counterexample to C4 as stated: a fully successful attempt ends
with the controller in the `success` state, not `idle` — the `finally`
block resets to `idle` only a state still stuck at `submitting`. -/
theorem claim_C4_counterexample :
    (handleSubmit demoToNumber demoCtrl "12" "teething pain" ""
      (.okJson demoPlan) (.okJson [])).ctrl.state = .success ∧
    ¬ (handleSubmit demoToNumber demoCtrl "12" "teething pain" ""
      (.okJson demoPlan) (.okJson [])).ctrl.state = .idle := by
  decide

/-- C4 (amended): at the end of every submission attempt the
controller is never left in `submitting` — it ends in `error` or
`success` — so the re-entrancy guard (which blocks only `submitting`)
never blocks a new attempt. -/
theorem claim_C4_amended_no_stuck_submitting (toNumber : String → JsNum)
    (c : Controller) (a co em : String) (p : FetchOutcome PlanData)
    (s : FetchOutcome (List Bundle))
    (hns : c.state ≠ .submitting) :
    (handleSubmit toNumber c a co em p s).ctrl.state ≠ .submitting ∧
    ((handleSubmit toNumber c a co em p s).ctrl.state = .error ∨
      (handleSubmit toNumber c a co em p s).ctrl.state = .success) := by
  cases hok : (validateFields toNumber (getTrimmedValue a) (getTrimmedValue co)
      (getTrimmedValue em)).ok with
  | false =>
    rw [handleSubmit_invalid toNumber c a co em p s hns hok]
    exact ⟨by simp, Or.inl rfl⟩
  | true =>
    cases hp : jsonFetch p with
    | error pe =>
      rw [handleSubmit_primary_error toNumber c a co em p s pe hns hok hp]
      exact ⟨by simp, Or.inl rfl⟩
    | ok pd =>
      cases hs : jsonFetch s with
      | error be =>
        rw [handleSubmit_bundles_error toNumber c a co em p s pd be hns hok hp hs]
        exact ⟨by simp, Or.inl rfl⟩
      | ok bd =>
        rw [handleSubmit_success toNumber c a co em p s pd bd hns hok hp hs]
        exact ⟨by simp, Or.inr rfl⟩

/-- Counterexample to C5 as stated: on a fully successful concrete
attempt the emitted events do not fit the specification's order — the
code emits no `state_change` between `plan_success` and
`bundles_success`, the specified order requires one there, and on the
validation path a `state_change(error)` follows `validation_failed`
rather than stopping. -/
theorem claim_C5_counterexample :
    specOrderC5 (handleSubmit demoToNumber demoCtrl "12" "teething pain" ""
      (.okJson demoPlan) (.okJson [])).events = false ∧
    (handleSubmit demoToNumber demoCtrl "12" "teething pain" ""
      (.okJson demoPlan) (.okJson [])).ctrl.state = .success := by
  decide

/-- C5 (amended): the events of a single submission attempt occur in
the fixed total order `state_change(validating)`, then either
(`validation_failed`, `state_change(error)`), or `submit`,
`state_change(submitting)`, then either (`error`,
`state_change(error)`) on primary failure, or `plan_success` followed
by either (`bundles_error`, `state_change(error)`) or
(`bundles_success`, `success`, `state_change(success)`); no
`state_change` is emitted between `plan_success` and the bundles
outcome, and no trailing `state_change(idle)` occurs. -/
theorem claim_C5_amended_fixed_order (toNumber : String → JsNum)
    (c : Controller) (a co em : String) (p : FetchOutcome PlanData)
    (s : FetchOutcome (List Bundle))
    (hns : c.state ≠ .submitting) :
    attemptTrace (handleSubmit toNumber c a co em p s).events = true := by
  cases hok : (validateFields toNumber (getTrimmedValue a) (getTrimmedValue co)
      (getTrimmedValue em)).ok with
  | false =>
    rw [handleSubmit_invalid toNumber c a co em p s hns hok]
    simp [attemptTrace, isStage, isSC, scEv]
  | true =>
    cases hp : jsonFetch p with
    | error pe =>
      rw [handleSubmit_primary_error toNumber c a co em p s pe hns hok hp]
      simp [attemptTrace, isStage, isSC, scEv]
    | ok pd =>
      cases hs : jsonFetch s with
      | error be =>
        rw [handleSubmit_bundles_error toNumber c a co em p s pd be hns hok hp hs]
        simp [attemptTrace, isStage, isSC, scEv]
      | ok bd =>
        rw [handleSubmit_success toNumber c a co em p s pd bd hns hok hp hs]
        simp [attemptTrace, isStage, isSC, scEv]

/-- Witness for C5 (amended): the concrete successful attempt's events
fit the amended order. -/
theorem claim_C5_amended_witness :
    attemptTrace (handleSubmit demoToNumber demoCtrl "12" "teething pain" ""
      (.okJson demoPlan) (.okJson [])).events = true :=
  claim_C5_amended_fixed_order demoToNumber demoCtrl "12" "teething pain" ""
    (.okJson demoPlan) (.okJson []) (by decide)

/-- C6: wrapping the controller's event sink by composition (the new
sink first calls the original sink, then performs the extra dispatch)
never changes what the original sink observes: for any event sequence,
the original sink's state after delivery through the wrapped sink
equals its state after direct delivery — in particular a recording
original sink records exactly the delivered events, with nothing
dropped, reordered, or duplicated. -/
theorem claim_C6_wrapping_preserves_original_sink :
    ∀ (σ τ : Type) (orig : Sink σ) (extra : Sink τ) (events : List Event)
      (s : σ) (t : τ),
      (deliverAll (wirePlannerEvents orig extra) events (s, t)).1 =
        deliverAll orig events s ∧
      (deliverAll (wirePlannerEvents recordSink extra) events ([], t)).1 =
        events := by
  intro σ τ orig extra events s t
  refine ⟨deliverAll_wire_fst orig extra events s t, ?_⟩
  rw [deliverAll_wire_fst recordSink extra events [] t]
  simpa using deliverAll_record events []

/-- C7: the error-resolution function is total — every raw failure is
assigned exactly one kind by the first matching rule: timeout-flagged
failures (a `TIMEOUT` code or the message `timeout`) resolve to
`TIMEOUT`; otherwise `TypeError`s (transport failures) resolve to
`NETWORK`; otherwise failures carrying a numeric status resolve to
`SERVER`; everything else — including a null/undefined error and the
`Invalid JSON response` failure produced for a malformed non-empty
body — resolves to `UNKNOWN`. -/
theorem claim_C7_error_taxonomy_total :
    (∀ e : RawError,
      ((e.code = some "TIMEOUT" ∨ e.message = "timeout") →
        (resolveError (some e)).kind = .TIMEOUT) ∧
      (¬(e.code = some "TIMEOUT" ∨ e.message = "timeout") →
        e.isTypeError = true →
        (resolveError (some e)).kind = .NETWORK) ∧
      (¬(e.code = some "TIMEOUT" ∨ e.message = "timeout") →
        e.isTypeError = false → e.status.isSome = true →
        (resolveError (some e)).kind = .SERVER) ∧
      (¬(e.code = some "TIMEOUT" ∨ e.message = "timeout") →
        e.isTypeError = false → e.status = none →
        (resolveError (some e)).kind = .UNKNOWN)) ∧
    (resolveError none).kind = .UNKNOWN ∧
    (∀ e : RawError,
      jsonFetch (FetchOutcome.okMalformed : FetchOutcome PlanData) =
        .error e →
      (resolveError (some e)).kind = .UNKNOWN) := by
  refine ⟨fun e => ⟨?_, ?_, ?_, ?_⟩, rfl, ?_⟩
  · intro h
    have hc : (decide (e.code = some "TIMEOUT") ||
        decide (e.message = "timeout")) = true := by
      rcases h with h | h <;> simp [h]
    simp [resolveError, hc]
  · intro hn ht
    have hc : (decide (e.code = some "TIMEOUT") ||
        decide (e.message = "timeout")) = false := by
      push_neg at hn
      simp [hn.1, hn.2]
    simp [resolveError, hc, ht]
  · intro hn ht hs
    have hc : (decide (e.code = some "TIMEOUT") ||
        decide (e.message = "timeout")) = false := by
      push_neg at hn
      simp [hn.1, hn.2]
    simp [resolveError, hc, ht, hs]
  · intro hn ht hst
    have hc : (decide (e.code = some "TIMEOUT") ||
        decide (e.message = "timeout")) = false := by
      push_neg at hn
      simp [hn.1, hn.2]
    simp [resolveError, hc, ht, hst]
  · intro e h
    simp only [jsonFetch, Except.error.injEq] at h
    rw [← h]
    rfl

/-- Witness for C7: one concrete failure per taxonomy rule. -/
theorem claim_C7_witness :
    (resolveError (some ⟨"timeout", some "TIMEOUT", none, false⟩)).kind =
      .TIMEOUT ∧
    (resolveError (some ⟨"Failed to fetch", none, none, true⟩)).kind =
      .NETWORK ∧
    (resolveError (some ⟨"HTTP 500", none, some 500, false⟩)).kind =
      .SERVER ∧
    (resolveError (some ⟨"Invalid JSON response", none, none, false⟩)).kind =
      .UNKNOWN :=
  ⟨(claim_C7_error_taxonomy_total.1 ⟨"timeout", some "TIMEOUT", none, false⟩).1
      (Or.inl rfl),
   ((claim_C7_error_taxonomy_total.1 ⟨"Failed to fetch", none, none, true⟩).2.1
      (by decide) rfl),
   ((claim_C7_error_taxonomy_total.1 ⟨"HTTP 500", none, some 500, false⟩).2.2.1
      (by decide) rfl rfl),
   ((claim_C7_error_taxonomy_total.1
      ⟨"Invalid JSON response", none, none, false⟩).2.2.2
      (by decide) rfl rfl)⟩

/-- Witness for C4 (amended): the concrete successful attempt. -/
theorem claim_C4_amended_witness :
    (handleSubmit demoToNumber demoCtrl "12" "teething pain" ""
      (.okJson demoPlan) (.okJson [])).ctrl.state ≠ .submitting ∧
    ((handleSubmit demoToNumber demoCtrl "12" "teething pain" ""
      (.okJson demoPlan) (.okJson [])).ctrl.state = .error ∨
      (handleSubmit demoToNumber demoCtrl "12" "teething pain" ""
        (.okJson demoPlan) (.okJson [])).ctrl.state = .success) :=
  claim_C4_amended_no_stuck_submitting demoToNumber demoCtrl "12" "teething pain" ""
    (.okJson demoPlan) (.okJson []) (by decide)

end Planner

namespace Planner

/-- Counterexample to C8 as stated: a concrete attempt whose secondary
(bundles) call fails is a failure path (final state error), yet zero
of its emitted events carry a `ResolvedError` or a field-errors
mapping — the single failure event `bundles_error` carries the raw
caught error, which is never passed through `resolveError`. -/
theorem claim_C8_counterexample :
    (handleSubmit demoToNumber demoCtrl "12" "teething pain" ""
      (.okJson demoPlan) (.httpError 500 none)).ctrl.state = .error ∧
    ((handleSubmit demoToNumber demoCtrl "12" "teething pain" ""
      (.okJson demoPlan) (.httpError 500 none)).events.filter
        carriesResolvedOrFieldErrors).length = 0 := by
  decide

/-- C8 (amended): every failure path of a submission attempt emits
exactly one failure event (`validation_failed`, `error`, or
`bundles_error`) and a successful attempt emits none; the
`validation_failed` event carries the non-empty field-errors mapping,
the `error` event carries a `ResolvedError`, and the `bundles_error`
event carries the raw (unresolved) secondary-call error. -/
theorem claim_C8_amended_exactly_one_failure_event (toNumber : String → JsNum)
    (c : Controller) (a co em : String) (p : FetchOutcome PlanData)
    (s : FetchOutcome (List Bundle))
    (hns : c.state ≠ .submitting) :
    ((handleSubmit toNumber c a co em p s).events.filter
      isFailureEvent).length =
      (if (handleSubmit toNumber c a co em p s).ctrl.state = .error
        then 1 else 0) ∧
    (∀ ev ∈ (handleSubmit toNumber c a co em p s).events,
      (ev.1 = "validation_failed" →
        ∃ fe, ev.2 = EventDetail.validationErrors fe ∧ fe.isEmpty = false) ∧
      (ev.1 = "error" → ∃ re, ev.2 = EventDetail.resolvedDetail re) ∧
      (ev.1 = "bundles_error" → ∃ be, ev.2 = EventDetail.rawDetail be)) := by
  cases hok : (validateFields toNumber (getTrimmedValue a) (getTrimmedValue co)
      (getTrimmedValue em)).ok with
  | false =>
    rw [handleSubmit_invalid toNumber c a co em p s hns hok]
    refine ⟨by simp [isFailureEvent, scEv], ?_⟩
    intro ev hev
    fin_cases hev <;> simp [scEv]
    rw [← validateFields_ok_eq]
    exact hok
  | true =>
    cases hp : jsonFetch p with
    | error pe =>
      rw [handleSubmit_primary_error toNumber c a co em p s pe hns hok hp]
      refine ⟨by simp [isFailureEvent, scEv], ?_⟩
      intro ev hev
      fin_cases hev <;> simp [scEv]
    | ok pd =>
      cases hs : jsonFetch s with
      | error be =>
        rw [handleSubmit_bundles_error toNumber c a co em p s pd be hns hok hp hs]
        refine ⟨by simp [isFailureEvent, scEv], ?_⟩
        intro ev hev
        fin_cases hev <;> simp [scEv]
      | ok bd =>
        rw [handleSubmit_success toNumber c a co em p s pd bd hns hok hp hs]
        refine ⟨by simp [isFailureEvent, scEv], ?_⟩
        intro ev hev
        fin_cases hev <;> simp [scEv]

/-- Witness for C8 (amended): a concrete attempt whose primary call
times out emits exactly one failure event. -/
theorem claim_C8_amended_witness :
    ((handleSubmit demoToNumber demoCtrl "12" "teething pain" ""
      FetchOutcome.timeout (.okJson [])).events.filter
        isFailureEvent).length =
      (if (handleSubmit demoToNumber demoCtrl "12" "teething pain" ""
          FetchOutcome.timeout (.okJson [])).ctrl.state = .error
        then 1 else 0) :=
  (claim_C8_amended_exactly_one_failure_event demoToNumber demoCtrl
    "12" "teething pain" "" FetchOutcome.timeout (.okJson []) (by decide)).1

/-- C10: for every input triple accepted by the validator, the payload
built from the same inputs is well-formed: `age_months` is a finite
number between the configured bounds 1 and 600, `concern` is the
trimmed concern string with length between 3 and 500, and the `email`
key is present exactly when the trimmed email string is non-empty. -/
theorem claim_C10_payload_wellformed (toNumber : String → JsNum)
    (a co em : String)
    (h : (validateFields toNumber a co em).ok = true) :
    (∃ q : ℚ, (getPayload toNumber a co em).age_months = .finite q ∧
      MIN_AGE_MONTHS ≤ q ∧ q ≤ MAX_AGE_MONTHS) ∧
    (getPayload toNumber a co em).concern = jsTrim co ∧
    MIN_CONCERN_LEN ≤ (getPayload toNumber a co em).concern.length ∧
    (getPayload toNumber a co em).concern.length ≤ MAX_CONCERN_LEN ∧
    ((getPayload toNumber a co em).email.isSome ↔ jsTrim em ≠ "") := by
  simp only [validateFields, FieldErrors.isEmpty] at h
  simp only [Bool.and_eq_true, Option.isNone_iff_eq_none] at h
  obtain ⟨⟨h1, h2⟩, h3⟩ := h
  split_ifs at h1 h2 h3
  all_goals simp_all
  rename_i ha0 hfin hrange hc0 hcmin hcmax hem
  obtain ⟨hisf, hle⟩ := hfin
  obtain ⟨hlt, hgt⟩ := hrange
  refine ⟨?_, rfl, ?_, ?_, ?_⟩
  · simp only [getPayload, getTrimmedValue, if_neg ha0]
    cases hn : toNumber (jsTrim a) with
    | nan => rw [hn] at hisf; simp [JsNum.isFinite] at hisf
    | posInf => rw [hn] at hisf; simp [JsNum.isFinite] at hisf
    | negInf => rw [hn] at hisf; simp [JsNum.isFinite] at hisf
    | finite q =>
      rw [hn] at hlt hgt
      simp only [JsNum.jsLt, MIN_AGE_MONTHS, decide_eq_false_iff_not] at hlt
      simp only [JsNum.jsGt, MAX_AGE_MONTHS, decide_eq_false_iff_not] at hgt
      exact ⟨q, rfl, not_lt.mp hlt, not_lt.mp hgt⟩
  · simpa only [getPayload, getTrimmedValue] using hcmin
  · simpa only [getPayload, getTrimmedValue] using hcmax
  · simp only [getPayload, getTrimmedValue]
    split_ifs with he <;> simp [he]

/-- Witness for C10: the concrete accepted triple
`("12", "teething pain", "")` yields a well-formed payload. -/
theorem claim_C10_witness :
    (∃ q : ℚ, (getPayload demoToNumber "12" "teething pain" "").age_months =
        .finite q ∧ MIN_AGE_MONTHS ≤ q ∧ q ≤ MAX_AGE_MONTHS) ∧
    (getPayload demoToNumber "12" "teething pain" "").concern =
      jsTrim "teething pain" ∧
    MIN_CONCERN_LEN ≤
      (getPayload demoToNumber "12" "teething pain" "").concern.length ∧
    (getPayload demoToNumber "12" "teething pain" "").concern.length ≤
      MAX_CONCERN_LEN ∧
    ((getPayload demoToNumber "12" "teething pain" "").email.isSome ↔
      jsTrim "" ≠ "") :=
  claim_C10_payload_wellformed demoToNumber "12" "teething pain" "" (by decide)

end Planner

namespace StaticServer

/-- C9 evaluated at a failing input (the code contradicts its own
`prevent directory traversal` comment): an authenticated request for
`/../secret.txt` resolves — because `path.join` normalises the `..`
away before the `replace(/\.\./g, '')` guard runs — to
`/srv/frontend/secret.txt`, a path outside the public root
`/srv/frontend/public`, and the handler serves it with status 200. -/
theorem claim_C9_traversal_bug :
    hasTraversal "/../secret.txt" = true ∧
    resolveFilePath "/srv" "/../secret.txt" = "/srv/frontend/secret.txt" ∧
    isUnderRoot "/srv/frontend/public"
      (resolveFilePath "/srv" "/../secret.txt") = false ∧
    handler (some "admin") (some "hunter2") "/srv" demoFs
        { authorization := some "Basic YWRtaW46aHVudGVyMg=="
          url := "/../secret.txt" } =
      .ok "text/plain" "TOP SECRET" := by
  decide

end StaticServer
